import Mathlib

/-!
Verification of the django-raster tile pipeline (`raster/tiles/parser.py` and
`raster/views.py`) against its natural-language specification.

The development shallowly embeds the Python source: pure computations become
Lean functions over `ℚ`/`ℕ`/`ℤ`, GDAL / PostGIS / PIL capabilities (which the
spec treats as external collaborators) become explicit function-valued
parameters or structure fields, and fallible code returns `Except`/`Option`.
Helper functions of the repository that live outside the two embedded files
(`raster.tiles.utils`, `raster.utils.IMG_FORMATS`) are modelled from the
specification text and say so in their doc comments.
-/

namespace DjangoRaster

/-- `WEB_MERCATOR_SRID` from `raster/tiles/const.py`. -/
def WEB_MERCATOR_SRID : ℤ := 3857

/-- `WEB_MERCATOR_TILESIZE` from `raster/tiles/const.py` (default tile pixel size). -/
def WEB_MERCATOR_TILESIZE : ℕ := 256

/-- Width of the web-mercator world in meters (`2 * pi * 6378137`), as the exact
rational used for the fixed pyramid scales. -/
def WEB_MERCATOR_WORLDSIZE : ℚ := 40075016685578488 / 1000000000

/-- Modelled from the spec: `raster.tiles.utils.tile_scale` (not under `src/`).
Pixel scale of the pyramid at a zoom level: zoom 0 is one whole-world tile and
each successive zoom halves the pixel size. -/
def tile_scale (zoom : ℕ) : ℚ :=
  WEB_MERCATOR_WORLDSIZE / (2 ^ zoom * (WEB_MERCATOR_TILESIZE : ℚ))

/-- The fixed list of pyramid zoom levels considered when matching a native
scale (zooms 0 through 18). -/
def ZOOM_LEVELS : List ℕ := List.range 19

/-- Modelled from the spec: the native-resolution zoom of
`raster.tiles.utils.closest_zoomlevel` (not under `src/`): among the pyramid's
fixed per-zoom pixel scales, the zoom level whose scale is closest to the given
native pixel scale (first such level on a tie). -/
def native_zoom (scale : ℚ) : ℕ :=
  ZOOM_LEVELS.foldl
    (fun best z => if |tile_scale z - scale| < |tile_scale best - scale| then z else best) 0

/-- Modelled from the spec: `raster.tiles.utils.closest_zoomlevel` (not under
`src/`), called by `compute_max_zoom` with its default next-higher behavior:
the native-resolution zoom incremented by one (the finer-than-native level,
enabled by default). -/
def closest_zoomlevel (scale : ℚ) : ℕ :=
  native_zoom scale + 1

/-- `RasterLayerParser.compute_max_zoom` (`parser.py` lines 371-386): the
effective max zoom is `closest_zoomlevel(abs(scale.x))`, reduced by one when
the `RASTER_ZOOM_NEXT_HIGHER` flag (`zoomdown`) is disabled.  (The metadata
record stores the pre-decrement value; only the effective zoom is returned
here.) -/
def compute_max_zoom (zoomdown : Bool) (scalex : ℚ) : ℕ :=
  let max_zoom := closest_zoomlevel |scalex|
  if zoomdown then max_zoom else max_zoom - 1

/-! ## Raster dataset model

GDAL rasters are the spec's external `RasterSource` capability: a band has a
nodata value and pixel values (indexed by column, row), and a dataset has a
spatial reference id, a band list, and the externally supplied `warp`
resampling operation. -/

/-- One band of a GDAL raster: nodata value plus pixel grid (column, row). -/
structure GBand where
  nodata_value : Option ℚ
  pixels : ℕ → ℕ → ℚ

/-- `band.data(offset=..., size=...)`: the block of pixel values of the given
size read at the given pixel offset (row-major rows of columns). -/
def GBand.data (b : GBand) (offset : ℕ × ℕ) (size : ℕ × ℕ) : List (List ℚ) :=
  (List.range size.2).map fun row =>
    (List.range size.1).map fun col => b.pixels (offset.1 + col) (offset.2 + row)

/-- Target grid passed to `dataset.warp`: origin, pixel scale and pixel
dimensions (`parser.py` lines 270-276). -/
structure WarpParams where
  originX : ℚ
  originY : ℚ
  scaleX : ℚ
  scaleY : ℚ
  width : ℕ
  height : ℕ

/-- A GDAL raster dataset.  `warp` is the external resampling capability
(`RasterSource.warpTo` in the spec): it returns the band list of the dataset
resampled onto the requested target grid. -/
structure Dataset where
  srid : ℤ
  bands : List GBand
  warp : WarpParams → List GBand

/-- Python `range(a, b)`: the list `[a, a+1, ..., b-1]`. -/
def pyRange (a b : ℕ) : List ℕ :=
  (List.range (b - a)).map (a + ·)

/-- Modelled from the spec: `raster.tiles.utils.tile_bounds` (not under
`src/`) — the geographic bounds `(xmin, ymin, xmax, ymax)` of tile `(x, y)` at
a zoom level, computed from the tile-index corners and the zoom's pixel scale
on the standard power-of-two grid anchored at the web-mercator world corner. -/
def tile_bounds (x y zoom : ℕ) : ℚ × ℚ × ℚ × ℚ :=
  let scale := tile_scale zoom
  let side := (WEB_MERCATOR_TILESIZE : ℚ) * scale
  ( -(WEB_MERCATOR_WORLDSIZE / 2) + x * side,
    WEB_MERCATOR_WORLDSIZE / 2 - (y + 1) * side,
    -(WEB_MERCATOR_WORLDSIZE / 2) + (x + 1) * side,
    WEB_MERCATOR_WORLDSIZE / 2 - y * side )

/-- One band entry of a tile's `band_data` list (`parser.py` lines 290-295):
the fixed-size block read from the snapped dataset plus that band's nodata
value. -/
structure BandData where
  data : List (List ℚ)
  nodata_value : Option ℚ

/-- A stored `RasterTile` record as built in `process_quadrant` (`parser.py`
lines 302-319): in-memory tile raster (origin, scale, bands) keyed by
`(tilex, tiley, tilez)`. -/
structure TileRec where
  tilex : ℕ
  tiley : ℕ
  tilez : ℕ
  rast_originX : ℚ
  rast_originY : ℚ
  rast_scaleX : ℚ
  rast_scaleY : ℚ
  band_data : List BandData

/-- Result of processing one quadrant: the warp target grid it requested and
the tile records it created. -/
structure QuadrantResult where
  warpParams : WarpParams
  tiles : List TileRec

/-- `RasterLayerParser.process_quadrant` (`parser.py` lines 250-319): snap the
working dataset to the quadrant grid by a single warp, then slice the snapped
grid into `tilesize`-square tiles, reading each band block at the pixel offset
`((tilex - xmin) * tilesize, (tiley - ymin) * tilesize)`. -/
def process_quadrant (ds : Dataset) (tilesize : ℕ)
    (indexrange : ℕ × ℕ × ℕ × ℕ) (zoom : ℕ) : QuadrantResult :=
  let (x0, y0, x1, y1) := indexrange
  let tilescale := tile_scale zoom
  let bounds := tile_bounds x0 y0 zoom
  let wp : WarpParams :=
    { originX := bounds.1
      originY := bounds.2.2.2
      scaleX := tilescale
      scaleY := -tilescale
      width := (x1 - x0 + 1) * tilesize
      height := (y1 - y0 + 1) * tilesize }
  let snapped := ds.warp wp
  let tiles := (pyRange x0 (x1 + 1)).flatMap fun tilex =>
    (pyRange y0 (y1 + 1)).map fun tiley =>
      let b := tile_bounds tilex tiley zoom
      let pixeloffset := ((tilex - x0) * tilesize, (tiley - y0) * tilesize)
      { tilex := tilex
        tiley := tiley
        tilez := zoom
        rast_originX := b.1
        rast_originY := b.2.2.2
        rast_scaleX := tilescale
        rast_scaleY := -tilescale
        band_data := snapped.map fun band =>
          { data := band.data pixeloffset (tilesize, tilesize)
            nodata_value := band.nodata_value } }
  { warpParams := wp, tiles := tiles }

/-- Concrete dataset used by the closed witness theorems: one band whose pixel
value encodes its coordinates, with the warp capability shifting every pixel
value by the requested origin-independent constant. -/
def exampleDataset : Dataset where
  srid := 3857
  bands := [{ nodata_value := some 0, pixels := fun c r => c + 2 * r }]
  warp := fun wp => [{ nodata_value := some 9, pixels := fun c r => c + r + wp.width }]

/-! ## Histogram accumulator -/

/-- `numpy.histogram(data, bins=edges)[0]`: frequency counts of `data` over
the fixed bin edges; bin `i` is the half-open interval
`[edges[i], edges[i+1])`, except the last bin which is closed.  Values outside
`[edges[0], edges[last]]` are not counted. -/
def numpy_histogram (data : List ℚ) (edges : List ℚ) : List ℕ :=
  let n := edges.length - 1
  (List.range n).map fun i =>
    (data.filter fun v =>
      decide (edges.getD i 0 ≤ v) &&
        (if i = n - 1 then decide (v ≤ edges.getD (i + 1) 0)
         else decide (v < edges.getD (i + 1) 0))).length

/-- The parser's per-band histogram accumulator state: `self.hist_bins` (bin
edges, one list per band) and `self.hist_values` (running bin counts, one list
per band), as initialized by `create_initial_histogram_buckets` from the band
metadata. -/
structure HistState where
  hist_bins : List (List ℚ)
  hist_values : List (List ℕ)

/-- `RasterLayerParser.push_histogram` (`parser.py` lines 321-330): for the
`i`-th band block of a tile, compute a histogram over the same bin edges
`hist_bins[i]` and add the counts into `hist_values[i]`.  The bin edges are
not touched. -/
def push_histogram (s : HistState) (data : List (List ℚ)) : HistState :=
  { hist_bins := s.hist_bins
    hist_values :=
      List.zipWith3
        (fun vals bins dat => List.zipWith (· + ·) vals (numpy_histogram dat bins))
        s.hist_values s.hist_bins data }

/-! ## Tile-level driver trace -/

/-- Observable effects of `populate_tile_level`, in program order. -/
inductive ParseEvent where
  | initHistogram
  | logCreating (ntiles nquadrants zoom : ℕ)
  | processQuadrant (indexrange : ℕ × ℕ × ℕ × ℕ) (zoom : ℕ)
  | persistHistogram
  | logFinished (zoom : ℕ)
  deriving DecidableEq

/-- `RasterLayerParser.populate_tile_level` (`parser.py` lines 216-246) as its
trace of observable effects: abort with no effect when `zoom > max_zoom`;
initialize the histogram buckets only at the max zoom; log and process every
quadrant; persist the accumulated histogram back to band metadata only at the
max zoom; finally log completion of the level.  The quadrant list and tile
count come from `raster.tiles.utils` (not under `src/`) and are passed in. -/
def populate_tile_level (max_zoom : ℕ) (quadrants : List (ℕ × ℕ × ℕ × ℕ))
    (nrtiles : ℕ) (zoom : ℕ) : List ParseEvent :=
  if zoom > max_zoom then []
  else
    (if zoom = max_zoom then [ParseEvent.initHistogram] else []) ++
    [ParseEvent.logCreating nrtiles quadrants.length zoom] ++
    quadrants.map (ParseEvent.processQuadrant · zoom) ++
    (if zoom = max_zoom then [ParseEvent.persistHistogram] else []) ++
    [ParseEvent.logFinished zoom]

/-! ## Source opening, reprojection cache and nodata override -/

/-- A stored raster file: a name (carrying the extension checked by
`open_raster_file`) and an abstract content id distinguishing versions. -/
structure RFile where
  name : String
  content : ℕ
  deriving DecidableEq

/-- `os.path.splitext(name)[1].lower() == '.zip'` for ordinary file names
(a name whose final extension is `.zip` in any capitalization). -/
def hasZipExt (name : String) : Bool :=
  name.toLower.endsWith ".zip"

/-- The `RasterLayerReprojected` record of a layer: optionally holds the
cached, already-reprojected raster file. -/
structure ReprojRecord where
  rasterfile : Option RFile
  deriving DecidableEq

/-- A `RasterLayer` as `open_raster_file` sees it: the original source file
and the declared nodata override (a text field; `None` and the empty string
both mean unset). -/
structure Layer where
  rasterfile : RFile
  nodata : Option String

/-- The external GDAL capabilities `open_raster_file` depends on: extracting
a zip archive (the files found by the directory walk, in order), opening a
file as a raster (`GDALRaster(path)`, `none` when a `GDALException` is
raised), reprojecting a dataset to web mercator, and compressing a
reprojected dataset into a stored zip file. -/
structure GdalEnv where
  extract : RFile → List RFile
  openRaster : RFile → Option Dataset
  transform : Dataset → Dataset
  zipped : Dataset → RFile

/-- How a run of `open_raster_file` can abort; both situations are the
spec's `SourceUnreadable`. -/
inductive OpenError where
  /-- `RasterException('Could not open rasterfile.')`: no archive member
  could be opened as a raster. -/
  | rasterException
  /-- A `GDALException` propagated from opening the direct (non-zip)
  source file. -/
  | gdalException
  deriving DecidableEq

/-- The outcome of a successful `open_raster_file` run: the working dataset,
the reprojected-cache record content after the run, and flags recording which
side effects happened. -/
structure OpenResult where
  dataset : Dataset
  reprojRecord : ReprojRecord
  reprojectInvoked : Bool
  metadataExtracted : Bool
  sourceUsed : RFile

/-- `parser.py` lines 73-77: use the reprojected cache file as the raster
source when it exists, the layer's original raster file otherwise. -/
def chosen_source (layer : Layer) (reproj : ReprojRecord) : RFile :=
  reproj.rasterfile.getD layer.rasterfile

/-- `parser.py` lines 90-119: if the source file is a zip archive, extract it
and open the first found file that GDAL can open, raising
`RasterException('Could not open rasterfile.')` when none opens; otherwise
open the source file directly, a failure propagating as a `GDALException`. -/
def open_source (env : GdalEnv) (f : RFile) : Except OpenError Dataset :=
  if hasZipExt f.name then
    match (env.extract f).findSome? env.openRaster with
    | some ds => .ok ds
    | none => .error .rasterException
  else
    match env.openRaster f with
    | some ds => .ok ds
    | none => .error .gdalException

/-- Python `float(s)` on the well-formed decimal strings a nodata override
holds (optional sign, digits, optional fractional part). -/
def pyFloat (s : String) : ℚ :=
  let neg := s.startsWith "-"
  let t := if neg then s.drop 1 else s
  let m : ℚ :=
    match t.splitOn "." with
    | [a] => ((a.toNat?).getD 0 : ℚ)
    | [a, b] => ((a.toNat?).getD 0 : ℚ) + ((b.toNat?).getD 0 : ℚ) / (10 : ℚ) ^ b.length
    | _ => 0
  if neg then -m else m

/-- `parser.py` lines 150-153: when the layer's nodata override is set
(`self.rasterlayer.nodata not in ('', None)`), write it as a float onto every
band of the working dataset; otherwise leave the bands untouched. -/
def apply_nodata (nodata : Option String) (ds : Dataset) : Dataset :=
  match nodata with
  | none => ds
  | some s =>
    if s = "" then ds
    else { ds with bands := ds.bands.map fun b =>
             { b with nodata_value := some (pyFloat s) } }

/-- `RasterLayerParser.open_raster_file` (`parser.py` lines 60-153) as a pure
function of the layer, the current `RasterLayerReprojected` record (`none`
when `get_or_create` has to create it) and the external GDAL capabilities.
Metadata is extracted only for a freshly created cache record; the
reprojection transform runs only when the opened dataset is not already in
web mercator, in which case its zipped result is stored in the cache record;
finally the nodata override is applied to the working dataset. -/
def open_raster_file (env : GdalEnv) (layer : Layer)
    (reprojRec : Option ReprojRecord) : Except OpenError OpenResult :=
  match open_source env (chosen_source layer (reprojRec.getD { rasterfile := none })) with
  | .error e => .error e
  | .ok ds0 =>
    if ds0.srid = WEB_MERCATOR_SRID then
      .ok { dataset := apply_nodata layer.nodata ds0
            reprojRecord := reprojRec.getD { rasterfile := none }
            reprojectInvoked := false
            metadataExtracted := reprojRec.isNone
            sourceUsed := chosen_source layer (reprojRec.getD { rasterfile := none }) }
    else
      .ok { dataset := apply_nodata layer.nodata (env.transform ds0)
            reprojRecord := { rasterfile := some (env.zipped (env.transform ds0)) }
            reprojectInvoked := true
            metadataExtracted := reprojRec.isNone
            sourceUsed := chosen_source layer (reprojRec.getD { rasterfile := none }) }

/-- Concrete files used by the closed witness theorems. -/
def exampleSourceFile : RFile := { name := "source.tif", content := 0 }

/-- The stored reprojected cache file of the witness layer (a zip archive, as
`open_raster_file` stores it). -/
def exampleCacheFile : RFile := { name := "reprojected.zip", content := 1 }

/-- The raster file found inside the witness cache archive. -/
def exampleMemberFile : RFile := { name := "reprojected.tif", content := 2 }

/-- A dataset already in web mercator, as opened from the witness cache. -/
def exampleWebDataset : Dataset :=
  { srid := 3857
    bands := [{ nodata_value := some 0, pixels := fun _ _ => 1 }]
    warp := fun _ => [] }

/-- The witness layer: direct source file, no nodata override. -/
def exampleLayer : Layer := { rasterfile := exampleSourceFile, nodata := none }

/-- Witness GDAL environment: extracting the cache archive yields its member,
only the member opens as a raster (already web mercator), and the transform
and compression capabilities are inert. -/
def exampleEnv : GdalEnv :=
  { extract := fun f => if f = exampleCacheFile then [exampleMemberFile] else []
    openRaster := fun f => if f = exampleMemberFile then some exampleWebDataset else none
    transform := fun ds => ds
    zipped := fun _ => exampleCacheFile }

/-- Concrete histogram state used by the closed witness theorems: one band
with bin edges `[0, 1, 2]` and running counts `[0, 0]`. -/
def exampleHistState : HistState :=
  { hist_bins := [[0, 1, 2]], hist_values := [[0, 0]] }

/-- Concrete tile band data used by the closed witness theorems. -/
def exampleTileData : List (List ℚ) := [[1/2]]

/-! ## Tile store and drop_empty_tiles -/

/-- A band of a stored tile raster, with concrete pixel data. -/
structure TBand where
  nodata_value : Option ℚ
  pixels : List ℚ
  deriving DecidableEq

/-- One `raster_rastertile` row: the tile raster keyed by layer id and
`(tilex, tiley, tilez)`. -/
structure DBTile where
  rasterlayer_id : ℕ
  tilex : ℕ
  tiley : ℕ
  tilez : ℕ
  rast : List TBand
  deriving DecidableEq

/-- Modelled from the documented PostGIS semantics of `ST_Count(rast)` (the
tile store is an external collaborator): with no band argument it counts the
pixels of band 1 that do not equal band 1's nodata value; every pixel counts
when band 1 has no nodata value set. -/
def ST_Count (rast : List TBand) : ℕ :=
  match rast.head? with
  | none => 0
  | some b =>
    match b.nodata_value with
    | none => b.pixels.length
    | some nd => (b.pixels.filter fun p => !(p == nd)).length

/-- `RasterLayerParser.drop_empty_tiles` (`parser.py` lines 340-359): the SQL
`DELETE FROM raster_rastertile WHERE ST_Count(rast)=0 AND rasterlayer_id={id}`
applied to the tile table — rows of the given layer whose `ST_Count` is zero
are removed, every other row remains. -/
def drop_empty_tiles (layer_id : ℕ) (tiles : List DBTile) : List DBTile :=
  tiles.filter fun t => !(ST_Count t.rast == 0 && t.rasterlayer_id == layer_id)

/-- The deletion predicate as the claim states it: every pixel of every band
equals that band's nodata value. -/
def all_bands_nodata (rast : List TBand) : Bool :=
  rast.all fun b => b.pixels.all fun p => b.nodata_value == some p

/-- A two-band tile of layer 1 whose first band is entirely nodata while its
second band holds a valid (non-nodata) pixel. -/
def mixedTile : DBTile :=
  { rasterlayer_id := 1, tilex := 0, tiley := 0, tilez := 0
    rast := [ { nodata_value := some 0, pixels := [0] },
              { nodata_value := some 0, pixels := [5] } ] }

/-- A tile of layer 1 whose first band holds a valid pixel. -/
def validTile : DBTile :=
  { rasterlayer_id := 1, tilex := 1, tiley := 0, tilez := 0
    rast := [ { nodata_value := some 0, pixels := [3] } ] }

/-! ## Rendering views: colormap resolution and tile response -/

/-- A dynamically typed Python colormap key: an integer after the inline
path's `int(k)` conversion, a string as stored in a legend's JSON. -/
inductive ColorKey where
  | int (z : ℤ)
  | str (s : String)
  deriving DecidableEq

/-- Python `str(k)` on a colormap key. -/
def ColorKey.pyStr : ColorKey → String
  | .int z => toString z
  | .str s => s

/-- Python `int(s)` on the well-formed decimal-string keys an inline
colormap holds. -/
def pyInt (s : String) : ℤ :=
  (s.toInt?).getD 0

/-- A colormap: band value (or expression) keys mapped to colors. -/
abbrev Colormap := List (ColorKey × String)

/-- A stored `Legend` row: title and colormap entries. -/
structure Legend where
  title : String
  colormap : Colormap
  deriving DecidableEq

/-- The query parameters of a tile request that affect rendering.  `none`
stands for an absent or empty (hence falsy) parameter; `colormap` holds the
parsed JSON object of the `colormap` parameter, `entries` the result of
splitting the `entries` parameter on commas. -/
structure TmsRequest where
  colormap : Option (List (String × String))
  legend : Option String
  entries : Option (List String)

/-- `TmsView.get_colormap` (`views.py` lines 52-81): an inline request
colormap wins, its keys converted by `int(k)`; otherwise an explicitly
requested legend name is looked up by case-insensitive title match (first
hit), falling back to the layer's own default legend; a found legend's
colormap is filtered to the requested entry keys by `str(k)` comparison when
entries are requested; `none` when no legend resolves. -/
def get_colormap (req : TmsRequest) (layerLegend : Option Legend)
    (allLegends : List Legend) : Option Colormap :=
  match req.colormap with
  | some clmp => some (clmp.map fun kv => (ColorKey.int (pyInt kv.1), kv.2))
  | none =>
    let legend : Option Legend :=
      match req.legend with
      | some q => (allLegends.filter fun lg => lg.title.toLower == q.toLower).head?
      | none => layerLegend
    match legend with
    | some lg =>
      match req.entries with
      | some es => some (lg.colormap.filter fun kv => es.contains kv.1.pyStr)
      | none => some lg.colormap
    | none => none

/-- An in-memory RGBA image: dimensions plus pixel values `(r, g, b, a)`. -/
structure PImage where
  width : ℕ
  height : ℕ
  pixel : ℕ → ℕ → ℕ × ℕ × ℕ × ℕ

/-- `Image.new("RGBA", (256, 256), (0, 0, 0, 0))` (`views.py` line 42). -/
def emptyTileImage : PImage :=
  { width := 256, height := 256, pixel := fun _ _ => (0, 0, 0, 0) }

/-- Modelled from the spec: `IMG_FORMATS` from `raster.utils` (not under
`src/`) — the fixed enumerated mapping from the request's extension to the
output image format. -/
def IMG_FORMATS : List (String × String) :=
  [("png", "PNG"), ("jpg", "JPEG")]

/-- URL keyword arguments of a tile request. -/
structure TmsKwargs where
  layer : String
  x : ℕ
  y : ℕ
  z : ℕ
  format : String

/-- An HTTP response carrying a rendered image. -/
structure TmsResponse where
  status : ℕ
  contentType : String
  img : PImage

/-- Client-visible failures of the view. -/
inductive HttpError where
  /-- `Http404` raised by `get_object_or_404` for an unknown layer. -/
  | notFound
  /-- `KeyError` from an unrecognized format extension in `IMG_FORMATS`. -/
  | keyError
  deriving DecidableEq

/-- A `RasterLayer` row as the view sees it: primary key, stored raster file
name, optional default legend. -/
structure ViewLayer where
  id : ℕ
  rasterfile_name : String
  legend : Option Legend
  deriving DecidableEq

/-- Django `field__contains`: substring containment. -/
def strContains (hay needle : String) : Bool :=
  (List.range (hay.length + 1)).any fun i => needle.isPrefixOf (hay.drop i)

/-- `TmsView.get` (`views.py` lines 15-49): look up the layer by file-name
containment (404 when none matches), filter the tile table on the requested
`(x, y, z)` and the layer id, resolve the colormap, and render the first
matching tile when one exists and the colormap is truthy (a nonempty dict);
otherwise use the fully transparent 256×256 RGBA image.  The response is
always HTTP 200 with the format looked up in `IMG_FORMATS`.  `render` is the
external `tile.rast.img(colormap)` capability. -/
def tms_get (layers : List ViewLayer) (tiles : List DBTile)
    (allLegends : List Legend) (render : DBTile → Colormap → PImage)
    (req : TmsRequest) (kw : TmsKwargs) : Except HttpError TmsResponse :=
  match layers.find? fun l => strContains l.rasterfile_name ("rasters/" ++ kw.layer) with
  | none => .error .notFound
  | some lyr =>
    let tile := tiles.filter fun t =>
      t.tilex == kw.x && t.tiley == kw.y && t.tilez == kw.z && t.rasterlayer_id == lyr.id
    let colormap := get_colormap req lyr.legend allLegends
    match IMG_FORMATS.lookup kw.format with
    | none => .error .keyError
    | some fmt =>
      let img :=
        match tile, colormap with
        | t :: _, some cm => if cm.isEmpty then emptyTileImage else render t cm
        | _, _ => emptyTileImage
      .ok { status := 200, contentType := fmt, img := img }

/-- The legend used by the view witnesses. -/
def exampleLegend : Legend :=
  { title := "Mylegend", colormap := [(ColorKey.str "1", "#00ff00")] }

/-- A request carrying the inline colormap `{"1": "#ff0000"}`. -/
def exampleInlineReq : TmsRequest :=
  { colormap := some [("1", "#ff0000")], legend := none, entries := none }

/-- A request asking for the legend `MYLEGEND` by name. -/
def exampleLegendReq : TmsRequest :=
  { colormap := none, legend := some "MYLEGEND", entries := none }

/-- A request with no colormap-related parameters at all. -/
def examplePlainReq : TmsRequest :=
  { colormap := none, legend := none, entries := none }

/-- The layer row used by the view witnesses. -/
def exampleViewLayer : ViewLayer :=
  { id := 1, rasterfile_name := "rasters/demo.tif", legend := some exampleLegend }

/-! ## Theorems -/

/-- C1: a raster whose native pixel scale equals the pyramid's zoom-12 scale
gets effective max zoom 13 when `RASTER_ZOOM_NEXT_HIGHER` is enabled and 12
when it is disabled; in general the flag shifts the finest generated zoom by
exactly one level relative to the native-resolution zoom. -/
theorem compute_max_zoom_zoomdown_shifts_one :
    compute_max_zoom true (tile_scale 12) = 13 ∧
    compute_max_zoom false (tile_scale 12) = 12 ∧
    ∀ s : ℚ, compute_max_zoom true s = native_zoom |s| + 1 ∧
      compute_max_zoom false s = native_zoom |s| ∧
      compute_max_zoom true s = compute_max_zoom false s + 1 := by
  refine ⟨?_, ?_, fun s => ⟨rfl, ?_, ?_⟩⟩
  · set_option maxRecDepth 10000 in with_unfolding_all decide
  · set_option maxRecDepth 10000 in with_unfolding_all decide
  · simp [compute_max_zoom, closest_zoomlevel]
  · simp [compute_max_zoom, closest_zoomlevel]

theorem mem_pyRange {lo hi a : ℕ} : a ∈ pyRange lo hi ↔ lo ≤ a ∧ a < hi := by
  simp only [pyRange, List.mem_map, List.mem_range]
  constructor
  · rintro ⟨k, hk, rfl⟩
    omega
  · rintro ⟨h1, h2⟩
    exact ⟨a - lo, by omega, by omega⟩

/-- C2: `process_quadrant` warps the working raster onto a grid of
`(xMax - xMin + 1) * tileSize` by `(yMax - yMin + 1) * tileSize` pixels, and
for every tile index inside the quadrant range it creates a tile whose band
data reads a `tileSize × tileSize` block of every snapped band at pixel offset
`((tileX - xMin) * tileSize, (tileY - yMin) * tileSize)`, packaged with that
band's nodata value. -/
theorem process_quadrant_warp_grid_and_tile_reads
    (ds : Dataset) (tilesize : ℕ) (x0 y0 x1 y1 zoom tx ty : ℕ)
    (hx0 : x0 ≤ tx) (hx1 : tx ≤ x1) (hy0 : y0 ≤ ty) (hy1 : ty ≤ y1) :
    (process_quadrant ds tilesize (x0, y0, x1, y1) zoom).warpParams.width
        = (x1 - x0 + 1) * tilesize ∧
    (process_quadrant ds tilesize (x0, y0, x1, y1) zoom).warpParams.height
        = (y1 - y0 + 1) * tilesize ∧
    ∃ t ∈ (process_quadrant ds tilesize (x0, y0, x1, y1) zoom).tiles,
      t.tilex = tx ∧ t.tiley = ty ∧ t.tilez = zoom ∧
      t.band_data =
        (ds.warp (process_quadrant ds tilesize (x0, y0, x1, y1) zoom).warpParams).map
          (fun band =>
            { data := band.data ((tx - x0) * tilesize, (ty - y0) * tilesize)
                (tilesize, tilesize)
              nodata_value := band.nodata_value }) := by
  refine ⟨rfl, rfl, ?_⟩
  exact ⟨_, List.mem_flatMap.mpr ⟨tx, mem_pyRange.mpr ⟨hx0, by omega⟩,
    List.mem_map.mpr ⟨ty, mem_pyRange.mpr ⟨hy0, by omega⟩, rfl⟩⟩, rfl, rfl, rfl, rfl⟩

/-- Closed witness for C2: quadrant `(2, 1, 4, 5)` at zoom 7, tile `(3, 2)`. -/
theorem process_quadrant_warp_grid_and_tile_reads_witness :
    2 ≤ 3 ∧ 3 ≤ 4 ∧ 1 ≤ 2 ∧ 2 ≤ 5 ∧
    ((process_quadrant exampleDataset 16 (2, 1, 4, 5) 7).warpParams.width
        = (4 - 2 + 1) * 16 ∧
     (process_quadrant exampleDataset 16 (2, 1, 4, 5) 7).warpParams.height
        = (5 - 1 + 1) * 16 ∧
     ∃ t ∈ (process_quadrant exampleDataset 16 (2, 1, 4, 5) 7).tiles,
       t.tilex = 3 ∧ t.tiley = 2 ∧ t.tilez = 7 ∧
       t.band_data =
         (exampleDataset.warp
             (process_quadrant exampleDataset 16 (2, 1, 4, 5) 7).warpParams).map
           (fun band =>
             { data := band.data ((3 - 2) * 16, (2 - 1) * 16) (16, 16)
               nodata_value := band.nodata_value })) :=
  ⟨by decide, by decide, by decide, by decide,
   process_quadrant_warp_grid_and_tile_reads exampleDataset 16 2 1 4 5 7 3 2
     (by decide) (by decide) (by decide) (by decide)⟩

theorem getD_zipWith_add_le (vals counts : List ℕ)
    (h : vals.length ≤ counts.length) (j : ℕ) :
    vals.getD j 0 ≤ (List.zipWith (· + ·) vals counts).getD j 0 := by
  induction vals generalizing counts j with
  | nil => simp
  | cons v vs ih =>
    cases counts with
    | nil => simp at h
    | cons c cs =>
      cases j with
      | zero => simp
      | succ j => simpa using ih cs (by simpa using h) j

theorem numpy_histogram_length (data edges : List ℚ) :
    (numpy_histogram data edges).length = edges.length - 1 := by
  simp [numpy_histogram]

theorem getD_getD_push_values_le (hv : List (List ℕ)) (hb : List (List ℚ))
    (data : List (List ℚ))
    (hvb : hv.length ≤ hb.length) (hvd : hv.length ≤ data.length)
    (hbl : ∀ i, i < hv.length → (hv.getD i []).length < (hb.getD i []).length)
    (i j : ℕ) :
    (hv.getD i []).getD j 0 ≤
      ((List.zipWith3
          (fun vals bins dat => List.zipWith (· + ·) vals (numpy_histogram dat bins))
          hv hb data).getD i []).getD j 0 := by
  induction hv generalizing hb data i with
  | nil => simp
  | cons v vs ih =>
    cases hb with
    | nil => simp at hvb
    | cons b bs =>
      cases data with
      | nil => simp at hvd
      | cons d ds =>
        cases i with
        | zero =>
          simp only [List.zipWith3, List.getD_cons_zero]
          refine getD_zipWith_add_le v _ ?_ j
          rw [numpy_histogram_length]
          have := hbl 0 (by simp)
          simp only [List.getD_cons_zero] at this
          omega
        | succ i =>
          simp only [List.zipWith3, List.getD_cons_succ]
          refine ih bs ds (by simpa using hvb) (by simpa using hvd) ?_ i
          intro k hk
          have := hbl (k + 1) (by simpa using hk)
          simpa using this

theorem populate_persist_iff (mz : ℕ) (q : List (ℕ × ℕ × ℕ × ℕ)) (n z : ℕ) :
    ParseEvent.persistHistogram ∈ populate_tile_level mz q n z ↔ z = mz := by
  unfold populate_tile_level
  by_cases h1 : z > mz
  · simp only [h1, if_pos]
    simp
    omega
  · by_cases h2 : z = mz <;> simp [h1, h2]

theorem populate_count_persist (mz : ℕ) (q : List (ℕ × ℕ × ℕ × ℕ)) (n : ℕ) :
    (populate_tile_level mz q n mz).count ParseEvent.persistHistogram = 1 := by
  unfold populate_tile_level
  simp [List.count_append, List.count_eq_zero]

theorem populate_head_init (mz : ℕ) (q : List (ℕ × ℕ × ℕ × ℕ)) (n : ℕ) :
    (populate_tile_level mz q n mz).head? = some ParseEvent.initHistogram := by
  simp [populate_tile_level]

/-- C3: the per-band bin edges are left untouched by `push_histogram`; each
`push_histogram` call only adds tile counts into the running per-band bin
counts, so every bin count is monotonically non-decreasing across calls; in
`populate_tile_level` the histogram buckets are initialized before any
quadrant is tiled and the accumulated counts are persisted back to band
metadata exactly once, at the end of the level, and only when the zoom being
tiled equals the max zoom. -/
theorem histogram_bins_fixed_counts_monotone_persist_once
    (s : HistState) (data : List (List ℚ))
    (hvb : s.hist_values.length ≤ s.hist_bins.length)
    (hvd : s.hist_values.length ≤ data.length)
    (hbl : ∀ i, i < s.hist_values.length →
      (s.hist_values.getD i []).length < (s.hist_bins.getD i []).length) :
    (push_histogram s data).hist_bins = s.hist_bins ∧
    (∀ i j, (s.hist_values.getD i []).getD j 0
        ≤ ((push_histogram s data).hist_values.getD i []).getD j 0) ∧
    (∀ max_zoom quadrants nrtiles zoom,
      (ParseEvent.persistHistogram ∈ populate_tile_level max_zoom quadrants nrtiles zoom
        ↔ zoom = max_zoom) ∧
      (populate_tile_level max_zoom quadrants nrtiles max_zoom).count
          ParseEvent.persistHistogram = 1 ∧
      (populate_tile_level max_zoom quadrants nrtiles max_zoom).head?
        = some ParseEvent.initHistogram) :=
  ⟨rfl, fun i j => getD_getD_push_values_le _ _ _ hvb hvd hbl i j,
   fun mz q n z =>
     ⟨populate_persist_iff mz q n z, populate_count_persist mz q n,
      populate_head_init mz q n⟩⟩

/-- Closed witness for C3 at a concrete one-band accumulator and tile. -/
theorem histogram_bins_fixed_counts_monotone_persist_once_witness :
    exampleHistState.hist_values.length ≤ exampleHistState.hist_bins.length ∧
    exampleHistState.hist_values.length ≤ exampleTileData.length ∧
    (push_histogram exampleHistState exampleTileData).hist_bins
      = exampleHistState.hist_bins ∧
    (∀ i j, (exampleHistState.hist_values.getD i []).getD j 0
        ≤ ((push_histogram exampleHistState exampleTileData).hist_values.getD i []).getD j 0) ∧
    ParseEvent.persistHistogram ∈ populate_tile_level 12 [(0, 0, 1, 1)] 4 12 := by
  have h := histogram_bins_fixed_counts_monotone_persist_once exampleHistState exampleTileData
    (by decide) (by decide) (by decide)
  exact ⟨by decide, by decide, h.1, h.2.1, ((h.2.2 12 [(0, 0, 1, 1)] 4 12).1).mpr rfl⟩

/-- C9: for every zoom level strictly greater than the layer's max zoom,
`populate_tile_level` returns immediately with an empty effect trace: no
tiles, no histogram initialization, no log or status writes. -/
theorem populate_tile_level_above_max_zoom_no_effect
    (max_zoom : ℕ) (quadrants : List (ℕ × ℕ × ℕ × ℕ)) (nrtiles zoom : ℕ)
    (h : zoom > max_zoom) :
    populate_tile_level max_zoom quadrants nrtiles zoom = [] := by
  simp [populate_tile_level, h]

/-- Closed witness for C9: zoom 13 on a layer whose max zoom is 12. -/
theorem populate_tile_level_above_max_zoom_no_effect_witness :
    (13 : ℕ) > 12 ∧ populate_tile_level 12 [(0, 0, 1, 1)] 4 13 = [] :=
  ⟨by decide,
   populate_tile_level_above_max_zoom_no_effect 12 [(0, 0, 1, 1)] 4 13 (by decide)⟩

theorem open_source_ok_srid (env : GdalEnv) (f : RFile) (ds : Dataset)
    (h : open_source env f = .ok ds)
    (hsrid : ∀ m d, (if hasZipExt f.name then m ∈ env.extract f else m = f) →
      env.openRaster m = some d → d.srid = WEB_MERCATOR_SRID) :
    ds.srid = WEB_MERCATOR_SRID := by
  unfold open_source at h
  by_cases hz : hasZipExt f.name
  · rw [if_pos hz] at h
    rcases h1 : (env.extract f).findSome? env.openRaster with _ | d
    · rw [h1] at h
      exact absurd h (by simp)
    · rw [h1] at h
      obtain ⟨m, hm, hopen⟩ := List.exists_of_findSome?_eq_some h1
      cases h
      exact hsrid m ds (by rw [if_pos hz]; exact hm) hopen
  · rw [if_neg hz] at h
    rcases h1 : env.openRaster f with _ | d
    · rw [h1] at h
      exact absurd h (by simp)
    · rw [h1] at h
      cases h
      exact hsrid f ds (by rw [if_neg hz]) h1

/-- C4: when the layer's reprojected-cache record already holds a raster
file, that cached file is used as the working source and the reprojection
transform is never invoked, so the cache record's content is unchanged by the
run.  (Uses the spec's data-model invariant that a present cache file is
already in web mercator: every raster opened from it carries
`WEB_MERCATOR_SRID`.) -/
theorem open_raster_file_reuses_cache
    (env : GdalEnv) (layer : Layer) (r : ReprojRecord) (f : RFile)
    (hf : r.rasterfile = some f)
    (hsrid : ∀ m d, (if hasZipExt f.name then m ∈ env.extract f else m = f) →
      env.openRaster m = some d → d.srid = WEB_MERCATOR_SRID) :
    chosen_source layer r = f ∧
    ∀ res, open_raster_file env layer (some r) = .ok res →
      res.sourceUsed = f ∧ res.reprojectInvoked = false ∧ res.reprojRecord = r := by
  have hcs : chosen_source layer r = f := by simp [chosen_source, hf]
  refine ⟨hcs, fun res hres => ?_⟩
  rcases h1 : open_source env f with e | ds0
  · unfold open_raster_file at hres
    rw [Option.getD_some, hcs, h1] at hres
    exact absurd hres (by simp)
  · have h2 := open_source_ok_srid env f ds0 h1 hsrid
    unfold open_raster_file at hres
    rw [Option.getD_some, hcs, h1] at hres
    simp only [h2, if_true] at hres
    cases hres
    exact ⟨rfl, rfl, rfl⟩

/-- Closed witness for C4: a layer whose cache record holds the zipped
reprojected file; the run succeeds, reuses the cache and does not reproject. -/
theorem open_raster_file_reuses_cache_witness :
    ({ rasterfile := some exampleCacheFile } : ReprojRecord).rasterfile
        = some exampleCacheFile ∧
    (open_raster_file exampleEnv exampleLayer
        (some { rasterfile := some exampleCacheFile })).isOk = true ∧
    chosen_source exampleLayer { rasterfile := some exampleCacheFile }
        = exampleCacheFile ∧
    ∀ res, open_raster_file exampleEnv exampleLayer
        (some { rasterfile := some exampleCacheFile }) = .ok res →
      res.sourceUsed = exampleCacheFile ∧ res.reprojectInvoked = false ∧
      res.reprojRecord = { rasterfile := some exampleCacheFile } := by
  have hz : hasZipExt exampleCacheFile.name = true := by with_unfolding_all decide
  have h := open_raster_file_reuses_cache exampleEnv exampleLayer
    { rasterfile := some exampleCacheFile } exampleCacheFile rfl
    (by
      intro m d hm hopen
      rw [if_pos hz] at hm
      simp [exampleEnv] at hm
      subst hm
      simp [exampleEnv] at hopen
      subst hopen
      rfl)
  refine ⟨rfl, ?_, h.1, h.2⟩
  have hfind : (exampleEnv.extract exampleCacheFile).findSome? exampleEnv.openRaster
      = some exampleWebDataset := by
    simp [exampleEnv]
  have hopen : open_source exampleEnv exampleCacheFile = .ok exampleWebDataset := by
    unfold open_source
    rw [hz]
    simp [hfind]
  have hsrid : exampleWebDataset.srid = WEB_MERCATOR_SRID := rfl
  unfold open_raster_file
  rw [Option.getD_some,
    show chosen_source exampleLayer { rasterfile := some exampleCacheFile }
      = exampleCacheFile from rfl, hopen]
  simp only [hsrid, if_true]
  rfl

theorem findSome?_append_first {α β : Type} (f : α → Option β) (pre : List α)
    (m : α) (post : List α) (b : β)
    (hpre : ∀ x ∈ pre, f x = none) (hm : f m = some b) :
    (pre ++ m :: post).findSome? f = some b := by
  induction pre with
  | nil => simp [List.findSome?_cons, hm]
  | cons p ps ih =>
    have hp := hpre p (by simp)
    simp only [List.cons_append, List.findSome?_cons, hp]
    exact ih fun x hx => hpre x (by simp [hx])

/-- C6: for a zip-archive source, `open_raster_file`'s opening step tries the
extracted candidate files in walk order and stops at the first that opens as
a raster; it raises the `SourceUnreadable` error
(`RasterException('Could not open rasterfile.')`) exactly when no candidate
opens.  For a direct (non-zip) file the opening step fails (a propagated
`GDALException`, also `SourceUnreadable` at the spec level) exactly when the
file does not open.  `open_raster_file` fails with exactly the errors of its
opening step. -/
theorem open_source_first_success_and_error_iff (env : GdalEnv) (f : RFile) :
    (hasZipExt f.name = true →
      ((open_source env f = .error .rasterException ↔
          ∀ m ∈ env.extract f, env.openRaster m = none) ∧
       (∀ pre m post ds, env.extract f = pre ++ m :: post →
         (∀ x ∈ pre, env.openRaster x = none) →
         env.openRaster m = some ds →
         open_source env f = .ok ds))) ∧
    (hasZipExt f.name = false →
      (open_source env f = .error .gdalException ↔ env.openRaster f = none)) ∧
    (∀ layer rec e, open_raster_file env layer rec = .error e ↔
      open_source env (chosen_source layer (rec.getD { rasterfile := none }))
        = .error e) := by
  refine ⟨fun hz => ⟨?_, ?_⟩, fun hz => ?_, fun layer rec e => ?_⟩
  · unfold open_source
    rw [hz]
    rcases hfs : (env.extract f).findSome? env.openRaster with _ | d
    · simp only [if_true]
      rw [List.findSome?_eq_none_iff] at hfs
      exact ⟨fun _ => hfs, fun _ => trivial⟩
    · simp only [if_true]
      constructor
      · intro h
        exact absurd h (by simp)
      · intro hall
        rw [List.findSome?_eq_none_iff.mpr hall] at hfs
        exact absurd hfs (by simp)
  · intro pre m post ds hext hpre hm
    unfold open_source
    rw [hz]
    simp only [if_true]
    rw [hext, findSome?_append_first env.openRaster pre m post ds hpre hm]
  · unfold open_source
    rw [hz]
    rcases hop : env.openRaster f with _ | d <;> simp
  · unfold open_raster_file
    rcases h1 : open_source env (chosen_source layer (rec.getD { rasterfile := none }))
      with e' | ds0
    · simp
    · by_cases h2 : ds0.srid = WEB_MERCATOR_SRID <;> simp [h2]

/-- Closed witness for C6: the zip source whose only member opens (first
success) and a direct file that does not open. -/
theorem open_source_first_success_and_error_iff_witness :
    hasZipExt exampleCacheFile.name = true ∧
    hasZipExt exampleSourceFile.name = false ∧
    (open_source exampleEnv exampleCacheFile = .error .rasterException ↔
      ∀ m ∈ exampleEnv.extract exampleCacheFile, exampleEnv.openRaster m = none) ∧
    (open_source exampleEnv exampleSourceFile = .error .gdalException ↔
      exampleEnv.openRaster exampleSourceFile = none) ∧
    open_source exampleEnv exampleCacheFile = .ok exampleWebDataset ∧
    (open_raster_file exampleEnv exampleLayer none = .error .gdalException ↔
      open_source exampleEnv (chosen_source exampleLayer { rasterfile := none })
        = .error .gdalException) := by
  have t1 := open_source_first_success_and_error_iff exampleEnv exampleCacheFile
  have t2 := open_source_first_success_and_error_iff exampleEnv exampleSourceFile
  have hz1 : hasZipExt exampleCacheFile.name = true := by with_unfolding_all decide
  have hz2 : hasZipExt exampleSourceFile.name = false := by with_unfolding_all decide
  refine ⟨hz1, hz2, (t1.1 hz1).1, t2.2.1 hz2, ?_,
    t1.2.2 exampleLayer none OpenError.gdalException⟩
  exact (t1.1 hz1).2 [] exampleMemberFile [] exampleWebDataset
    (by simp [exampleEnv]) (by simp) (by simp [exampleEnv])

/-- C10: the layer nodata override counts as unset only when it is the empty
string or `None`; any other value — including the falsy string `"0"` — is
applied as a float nodata value to every band of the working raster, and when
the override is unset the bands are left unchanged. -/
theorem apply_nodata_unset_only_empty_or_none (ds : Dataset) :
    apply_nodata none ds = ds ∧
    apply_nodata (some "") ds = ds ∧
    (∀ s : String, s ≠ "" →
      ∀ b ∈ (apply_nodata (some s) ds).bands, b.nodata_value = some (pyFloat s)) ∧
    pyFloat "0" = 0 := by
  refine ⟨rfl, rfl, fun s hs b hb => ?_, by with_unfolding_all decide⟩
  simp only [apply_nodata] at hb
  rw [if_neg hs] at hb
  simp only [List.mem_map] at hb
  obtain ⟨b0, _, rfl⟩ := hb
  rfl

/-- Closed witness for C10: the override `"0"` is falsy in Python yet is
applied as nodata `0.0` to every band. -/
theorem apply_nodata_unset_only_empty_or_none_witness :
    ("0" : String) ≠ "" ∧
    apply_nodata none exampleDataset = exampleDataset ∧
    (∀ b ∈ (apply_nodata (some "0") exampleDataset).bands,
      b.nodata_value = some (pyFloat "0")) ∧
    pyFloat "0" = 0 := by
  have h := apply_nodata_unset_only_empty_or_none exampleDataset
  exact ⟨by decide, h.1, h.2.2.1 "0" (by decide), h.2.2.2⟩

/-- C5 counterexample: `mixedTile` has a valid pixel in its second band, so
under the claim ("deletes exactly those tiles whose pixel data is entirely
nodata across all bands, and no other tiles") it must survive
`drop_empty_tiles` of layer 1 — but the SQL predicate `ST_Count(rast)=0` only
inspects band 1, which is entirely nodata, so the tile is deleted. -/
theorem drop_empty_tiles_deletes_tile_with_valid_second_band :
    all_bands_nodata mixedTile.rast = false ∧
    mixedTile.rasterlayer_id = 1 ∧
    drop_empty_tiles 1 [mixedTile] = [] := by
  refine ⟨?_, rfl, ?_⟩
  · with_unfolding_all decide
  · with_unfolding_all decide

/-- C5 (amended): `drop_empty_tiles` deletes exactly those tile records of
the given layer whose first band counts zero non-nodata pixels
(`ST_Count(rast) = 0`), and no other tiles; when band 1 carries a nodata
value, that condition says precisely that every pixel of band 1 equals it. -/
theorem drop_empty_tiles_exactly_band1_all_nodata
    (layer_id : ℕ) (tiles : List DBTile) (t : DBTile) :
    (t ∈ drop_empty_tiles layer_id tiles ↔
      t ∈ tiles ∧ ¬(t.rasterlayer_id = layer_id ∧ ST_Count t.rast = 0)) ∧
    (∀ b rest nd, t.rast = b :: rest → b.nodata_value = some nd →
      (ST_Count t.rast = 0 ↔ ∀ p ∈ b.pixels, p = nd)) := by
  constructor
  · rw [drop_empty_tiles, List.mem_filter]
    simp only [Bool.not_eq_eq_eq_not, Bool.not_true, Bool.and_eq_false_imp,
      beq_iff_eq]
    constructor
    · rintro ⟨hmem, hcond⟩
      refine ⟨hmem, fun hand => ?_⟩
      have hbeq := hcond hand.2
      rw [beq_eq_false_iff_ne] at hbeq
      exact hbeq hand.1
    · rintro ⟨hmem, hcond⟩
      refine ⟨hmem, fun hc => ?_⟩
      rw [beq_eq_false_iff_ne]
      intro hl
      exact hcond ⟨hl, hc⟩
  · intro b rest nd hr hnd
    rw [ST_Count, hr]
    simp only [List.head?_cons, hnd, List.length_eq_zero, List.filter_eq_nil_iff,
      Bool.not_eq_true, beq_eq_false_iff_ne]
    constructor
    · intro h p hp
      by_contra hne
      exact absurd (h p hp) (by simp [hne])
    · intro h p hp
      simp [h p hp]

/-- Closed witness for the amended C5: layer 1 holds one band-1-empty tile
and one valid tile; only the former satisfies the deletion predicate, and for
the valid tile the `ST_Count` condition matches band-1 nodata membership. -/
theorem drop_empty_tiles_exactly_band1_all_nodata_witness :
    validTile.rast = { nodata_value := some 0, pixels := [3] } :: [] ∧
    ({ nodata_value := some 0, pixels := [3] } : TBand).nodata_value = some 0 ∧
    (validTile ∈ drop_empty_tiles 1 [mixedTile, validTile] ↔
      validTile ∈ [mixedTile, validTile] ∧
      ¬(validTile.rasterlayer_id = 1 ∧ ST_Count validTile.rast = 0)) ∧
    (ST_Count validTile.rast = 0 ↔
      ∀ p ∈ ({ nodata_value := some 0, pixels := [3] } : TBand).pixels, p = 0) := by
  have h := drop_empty_tiles_exactly_band1_all_nodata 1 [mixedTile, validTile] validTile
  exact ⟨rfl, rfl, h.1, h.2 { nodata_value := some 0, pixels := [3] } [] 0 rfl rfl⟩

/-- C7: colormap resolution precedence — an inline request colormap is
parsed (keys through `int`) and used, ignoring any legend configuration;
otherwise a requested legend name resolves by case-insensitive title match
(first hit), filtered by the requested entry keys; otherwise the layer's own
default legend is used the same way. -/
theorem get_colormap_precedence
    (req : TmsRequest) (layerLegend : Option Legend) (allLegends : List Legend) :
    (∀ cm, req.colormap = some cm →
      get_colormap req layerLegend allLegends
        = some (cm.map fun kv => (ColorKey.int (pyInt kv.1), kv.2))) ∧
    (∀ q lg, req.colormap = none → req.legend = some q →
      (allLegends.filter fun l => l.title.toLower == q.toLower).head? = some lg →
      get_colormap req layerLegend allLegends
        = some (match req.entries with
                | some es => lg.colormap.filter fun kv => es.contains kv.1.pyStr
                | none => lg.colormap)) ∧
    (∀ lg, req.colormap = none → req.legend = none → layerLegend = some lg →
      get_colormap req layerLegend allLegends
        = some (match req.entries with
                | some es => lg.colormap.filter fun kv => es.contains kv.1.pyStr
                | none => lg.colormap)) := by
  refine ⟨fun cm hcm => ?_, fun q lg hcm hq hl => ?_, fun lg hcm hq hl => ?_⟩
  · unfold get_colormap
    rw [hcm]
  · simp only [get_colormap, hcm, hq, hl]
    rcases req.entries with _ | es <;> rfl
  · simp only [get_colormap, hcm, hq, hl]
    rcases req.entries with _ | es <;> rfl

/-- Closed witness for C7: the inline colormap `{"1": "#ff0000"}` wins over
the layer's default legend; a named legend resolves case-insensitively; with
no parameters the layer default is used. -/
theorem get_colormap_precedence_witness :
    exampleInlineReq.colormap = some [("1", "#ff0000")] ∧
    get_colormap exampleInlineReq (some exampleLegend) [exampleLegend]
      = some ([("1", "#ff0000")].map fun kv => (ColorKey.int (pyInt kv.1), kv.2)) ∧
    get_colormap exampleInlineReq (some exampleLegend) [exampleLegend]
      = some [(ColorKey.int 1, "#ff0000")] ∧
    ([exampleLegend].filter fun l =>
        l.title.toLower == ("MYLEGEND" : String).toLower).head? = some exampleLegend ∧
    get_colormap exampleLegendReq none [exampleLegend] = some exampleLegend.colormap ∧
    get_colormap examplePlainReq (some exampleLegend) [] = some exampleLegend.colormap := by
  have h₁ := get_colormap_precedence exampleInlineReq (some exampleLegend) [exampleLegend]
  have h₂ := get_colormap_precedence exampleLegendReq none [exampleLegend]
  have h₃ := get_colormap_precedence examplePlainReq (some exampleLegend) []
  have hfil : ([exampleLegend].filter fun l =>
      l.title.toLower == ("MYLEGEND" : String).toLower).head? = some exampleLegend := by
    with_unfolding_all decide
  refine ⟨rfl, h₁.1 [("1", "#ff0000")] rfl, ?_, hfil,
    h₂.2.1 "MYLEGEND" exampleLegend rfl rfl hfil, h₃.2.2 exampleLegend rfl rfl rfl⟩
  rw [h₁.1 [("1", "#ff0000")] rfl]
  with_unfolding_all decide

/-- C8: on an existing layer and a recognized format, whenever no tile
record matches the requested `(x, y, z)` index or no colormap resolves (or
it resolves to the falsy empty dict), the view responds HTTP 200 in the
requested format with the fully transparent 256×256 RGBA image (every
pixel's alpha is zero). -/
theorem tms_get_missing_tile_or_colormap_transparent
    (layers : List ViewLayer) (tiles : List DBTile) (allLegends : List Legend)
    (render : DBTile → Colormap → PImage) (req : TmsRequest) (kw : TmsKwargs)
    (lyr : ViewLayer) (fmt : String)
    (hl : layers.find? (fun l => strContains l.rasterfile_name ("rasters/" ++ kw.layer))
      = some lyr)
    (hf : IMG_FORMATS.lookup kw.format = some fmt)
    (hmiss : tiles.filter (fun t => t.tilex == kw.x && t.tiley == kw.y &&
        t.tilez == kw.z && t.rasterlayer_id == lyr.id) = [] ∨
      get_colormap req lyr.legend allLegends = none ∨
      get_colormap req lyr.legend allLegends = some []) :
    tms_get layers tiles allLegends render req kw
      = .ok { status := 200, contentType := fmt, img := emptyTileImage } ∧
    emptyTileImage.width = 256 ∧ emptyTileImage.height = 256 ∧
    ∀ x y, (emptyTileImage.pixel x y).2.2.2 = 0 := by
  refine ⟨?_, rfl, rfl, fun x y => rfl⟩
  simp only [tms_get, hl, hf]
  rcases hmiss with hm | hm | hm
  · rw [hm]
  · rcases hfl : tiles.filter (fun t => t.tilex == kw.x && t.tiley == kw.y &&
        t.tilez == kw.z && t.rasterlayer_id == lyr.id) with _ | ⟨t, rest⟩
    · rw [hfl, hm]
    · rw [hfl, hm]
  · rcases hfl : tiles.filter (fun t => t.tilex == kw.x && t.tiley == kw.y &&
        t.tilez == kw.z && t.rasterlayer_id == lyr.id) with _ | ⟨t, rest⟩
    · rw [hfl, hm]
    · rw [hfl, hm]
      rfl

/-- Closed witness for C8: a request for tile `(0, 0, 0)` of the known layer
with an empty tile store and the default legend resolving — the view answers
200 with the transparent image in PNG format. -/
theorem tms_get_missing_tile_or_colormap_transparent_witness :
    ([exampleViewLayer].find? (fun l => strContains l.rasterfile_name
        ("rasters/" ++ ("demo.tif" : String))) = some exampleViewLayer) ∧
    IMG_FORMATS.lookup "png" = some "PNG" ∧
    (([] : List DBTile).filter (fun t => t.tilex == 0 && t.tiley == 0 &&
        t.tilez == 0 && t.rasterlayer_id == exampleViewLayer.id) = []) ∧
    tms_get [exampleViewLayer] [] [] (fun _ _ => emptyTileImage) examplePlainReq
        { layer := "demo.tif", x := 0, y := 0, z := 0, format := "png" }
      = .ok { status := 200, contentType := "PNG", img := emptyTileImage } ∧
    (∀ x y, (emptyTileImage.pixel x y).2.2.2 = 0) := by
  have hl : [exampleViewLayer].find? (fun l => strContains l.rasterfile_name
      ("rasters/" ++ ("demo.tif" : String))) = some exampleViewLayer := by
    with_unfolding_all decide
  have hf : IMG_FORMATS.lookup "png" = some "PNG" := by with_unfolding_all decide
  have h := tms_get_missing_tile_or_colormap_transparent [exampleViewLayer] [] []
    (fun _ _ => emptyTileImage) examplePlainReq
    { layer := "demo.tif", x := 0, y := 0, z := 0, format := "png" }
    exampleViewLayer "PNG" hl hf (Or.inl rfl)
  exact ⟨hl, hf, rfl, h.1, h.2.2.2⟩

end DjangoRaster
